import Mathlib

/-!
# PR Anomaly Detection — verification of the encoding / scoring pipeline

Shallow embedding of the feature-engineering, scoring and request-handling
code of `src/training/train.py` and `src/serving/app.py`, together with
theorems settling the specification claims about them.

Conventions of the embedding:
* Python / JSON values are modelled by the inductive `Json`; a Python dict
  (a request record) is an association list `Record`.
* Machine floats are modelled as exact rationals `ℚ`; every arithmetic
  step of the source is carried over literally on `ℚ`.
* Fallible Python code (code that can raise) is modelled with
  `Except String`; the string is the exception detail.
* The fitted IsolationForest model itself is opaque to every claim
  considered here, so `model.decision_function` is abstracted as an
  arbitrary total function `f : List ℚ → ℚ` on feature vectors.
-/

namespace PRAnomaly

/-- A JSON / Python value as it appears in a request payload or a
pandas cell (`null` doubles as Python `None` / pandas `NaN`). -/
inductive Json where
  | null : Json
  | bool (b : Bool) : Json
  | num (q : ℚ) : Json
  | str (s : String) : Json
  | arr (elems : List Json) : Json
  | obj (fields : List (String × Json)) : Json

/-- A Python dict keyed by strings, e.g. one PR item of a request. -/
def Record := List (String × Json)

/-- Python truthiness (`bool(v)`) of a JSON value. -/
def truthy : Json → Bool
  | Json.null => false
  | Json.bool b => b
  | Json.num q => decide (q ≠ 0)
  | Json.str s => decide (s ≠ "")
  | Json.arr xs => !xs.isEmpty
  | Json.obj kvs => !kvs.isEmpty

/-- Python `str(v)`.  The textual rendering of numbers, lists and dicts is
abstracted (no claim below evaluates `str` on those shapes); strings,
`None` and booleans follow Python exactly. -/
def pyStr : Json → String
  | Json.null => "None"
  | Json.bool true => "True"
  | Json.bool false => "False"
  | Json.num q => toString q
  | Json.str s => s
  | Json.arr _ => "[...]"
  | Json.obj _ => "dict"

/-- Numeric value of a decimal digit character. -/
def digitVal (c : Char) : ℕ := c.toNat - 48

/-- Value of a digit string (most significant first). -/
def natOfDigits (cs : List Char) : ℕ := cs.foldl (fun a c => a * 10 + digitVal c) 0

/-- Strip leading and trailing whitespace, as Python `float(str)` does. -/
def trimChars (cs : List Char) : List Char :=
  ((cs.dropWhile Char.isWhitespace).reverse.dropWhile Char.isWhitespace).reverse

/-- Parse an unsigned decimal literal `digits[.digits]`.  (The exponent,
`inf`/`nan` and underscore forms also accepted by Python `float` are
abstracted away; no claim depends on them.) -/
def parseUnsignedFloat (cs : List Char) : Option ℚ :=
  let ip := cs.takeWhile Char.isDigit
  let rest := cs.dropWhile Char.isDigit
  match rest with
  | [] => if ip.isEmpty then none else some ((natOfDigits ip : ℕ) : ℚ)
  | '.' :: rest2 =>
    let fp := rest2.takeWhile Char.isDigit
    let rest3 := rest2.dropWhile Char.isDigit
    if rest3.isEmpty && !(ip.isEmpty && fp.isEmpty) then
      some (((natOfDigits ip : ℕ) : ℚ) + ((natOfDigits fp : ℕ) : ℚ) / (10 : ℚ) ^ fp.length)
    else none
  | _ => none

/-- Parse a signed decimal literal, Python `float(string)`. -/
def parseFloatStr (s : String) : Option ℚ :=
  match trimChars s.data with
  | '+' :: rest => parseUnsignedFloat rest
  | '-' :: rest => (parseUnsignedFloat rest).map (fun q => -q)
  | cs => parseUnsignedFloat cs

/-- Python `float(v)`: `none` models a raised `ValueError`/`TypeError`. -/
def pyFloat : Json → Option ℚ
  | Json.num q => some q
  | Json.bool b => some (if b then 1 else 0)
  | Json.str s => parseFloatStr s
  | _ => none

/-- Lexicographic strict order on strings by Unicode code point, the order
numpy uses when sorting the distinct category values. -/
def lexLt : List Char → List Char → Bool
  | [], [] => false
  | [], _ :: _ => true
  | _ :: _, [] => false
  | a :: as, b :: bs =>
    if a.toNat < b.toNat then true
    else if b.toNat < a.toNat then false
    else lexLt as bs

/-- Non-strict string order used to sort encoder classes. -/
def strLeB (s t : String) : Bool := s == t || lexLt s.data t.data

/-- `strLeB` as a decidable relation for `List.insertionSort`. -/
def strLeP (s t : String) : Prop := strLeB s t = true

instance : DecidableRel strLeP := fun s t => inferInstanceAs (Decidable (strLeB s t = true))

/-- `sklearn.preprocessing.LabelEncoder.fit`: the fitted `classes_` are the
distinct input values in sorted order. -/
def leFit (vals : List String) : List String := List.insertionSort strLeP vals.dedup

/-- Serving-time categorical encoding (`app.py` line 102):
`int(le.transform([val])[0]) if val in classes else -1`.
`LabelEncoder.transform` of a fitted value is its index in `classes_`. -/
def catCode (classes : List String) (val : String) : ℤ :=
  if val ∈ classes then (List.indexOf val classes : ℤ) else -1

/-- Fit-time cell normalisation (`train.py` line 122):
`df[col].fillna("__UNKNOWN__").astype(str)` — only a missing value (NaN /
None) is replaced by the sentinel; every other cell is stringified as is. -/
def fitCellStr : Json → String
  | Json.null => "__UNKNOWN__"
  | c => pyStr c

/-- Fit-time encoding of one categorical column (`train.py` lines 119-124):
`le.fit_transform` assigns every occurrence its index in the sorted set of
distinct normalised values. -/
def trainColEncode (cells : List Json) : List ℤ :=
  let strs := cells.map fitCellStr
  let classes := leFit strs
  strs.map (fun s => (List.indexOf s classes : ℤ))

/-- Categorical feature columns; `train.py` lines 86-90 and `app.py`
lines 70-74 declare the identical list. -/
def CATEGORICAL_FEATURES : List String :=
  ["pr_type", "company_code", "plant", "purchasing_group",
   "material_group", "unit", "currency",
   "gl_account", "cost_center", "wbs_element", "profit_center"]

/-- Numeric / derived feature columns; `train.py` lines 92-97 and `app.py`
lines 76-81 declare the identical list. -/
def NUMERIC_FEATURES : List String :=
  ["quantity", "net_price", "day_of_week", "month", "text_length"]

/-- Feature column order fixed at training time (`train.py` line 126):
`[c + "_enc" for c in CATEGORICAL_FEATURES] + NUMERIC_FEATURES`. -/
def trainFeatureCols : List String :=
  CATEGORICAL_FEATURES.map (fun c => c ++ "_enc") ++ NUMERIC_FEATURES

/-- The trained artefact as consumed by serving: fitted encoder classes per
column, the recorded feature column order, and the calibrated threshold.
(The forest itself is abstracted; see module comment.) -/
structure Artefact where
  encoders : List (String × List String)
  feature_cols : List String
  threshold : ℚ

/-- `train.py` lines 152/172-176: the artefact records `feature_cols` once,
as returned by `engineer_features`. -/
def trainArtefact (encoders : List (String × List String)) (threshold : ℚ) : Artefact :=
  { encoders := encoders, feature_cols := trainFeatureCols, threshold := threshold }

/-- Python `row.get(key, dflt)`. -/
def getField (row : Record) (key : String) (dflt : Json) : Json :=
  (List.lookup key row).getD dflt

/-- Serving-time categorical value normalisation (`app.py` line 98):
`str(row.get(col, "__UNKNOWN__") or "__UNKNOWN__")`. -/
def servCat (row : Record) (col : String) : String :=
  let v := getField row col (Json.str "__UNKNOWN__")
  pyStr (if truthy v then v else Json.str "__UNKNOWN__")

/-- One encoded categorical feature at serving time (`app.py` lines 96-104). -/
def encFeature (art : Artefact) (row : Record) (col : String) : ℤ :=
  match List.lookup col art.encoders with
  | some classes => catCode classes (servCat row col)
  | none => -1

/-- Weekday (Monday = 0, as `pandas .dayofweek`) of a Gregorian date with
year ≥ 1, by Zeller's congruence. -/
def dayOfWeekMon (y m d : ℕ) : ℤ :=
  let y' := if m ≤ 2 then y - 1 else y
  let m' := if m ≤ 2 then m + 12 else m
  let K := y' % 100
  let J := y' / 100
  let h := (d + 13 * (m' + 1) / 5 + K + K / 4 + J / 4 + 5 * J) % 7
  (((h + 5) % 7 : ℕ) : ℤ)

/-- Parse an ISO `YYYY-MM-DD` date into `(dayofweek, month)`.  Calendar
abstraction of `pd.to_datetime(_, errors="coerce")`: pandas accepts further
formats and validates month lengths; the claims below only exercise the
missing/unparseable case, which yields `none` (NaT) here as there. -/
def parseISODate (s : String) : Option (ℤ × ℤ) :=
  match s.data.splitOn '-' with
  | [ys, ms, ds] =>
    if !ys.isEmpty && !ms.isEmpty && !ds.isEmpty && (ys ++ ms ++ ds).all Char.isDigit then
      let y := natOfDigits ys
      let m := natOfDigits ms
      let d := natOfDigits ds
      if 1 ≤ y ∧ 1 ≤ m ∧ m ≤ 12 ∧ 1 ≤ d ∧ d ≤ 31 then
        some (dayOfWeekMon y m d, (m : ℤ))
      else none
    else none
  | _ => none

/-- `pd.to_datetime(v, errors="coerce")` reduced to what the claims need:
`None`/NaN gives NaT; a string is parsed; other scalars are abstracted as
unparseable. -/
def parseDate : Json → Option (ℤ × ℤ)
  | Json.str s => parseISODate s
  | _ => none

/-- Date-derived features (`app.py` lines 107-109): sentinel `-1` for both
when the date is absent or unparseable. -/
def dateFeats (row : Record) : ℤ × ℤ :=
  match parseDate (getField row "pr_date" Json.null) with
  | some dm => dm
  | none => (-1, -1)

/-- A numeric field (`app.py` lines 112-113):
`float(row.get(key, 0) or 0)` — a falsy value is replaced by `0` before the
conversion; a truthy unconvertible value raises. -/
def numField (row : Record) (key : String) : Except String ℚ :=
  let v := getField row key (Json.num 0)
  match pyFloat (if truthy v then v else Json.num 0) with
  | some q => Except.ok q
  | none => Except.error ("could not convert value to float: " ++ key)

/-- `app.py` line 114: `len(str(row.get("short_text", "") or ""))`. -/
def textLen (row : Record) : ℕ :=
  let v := getField row "short_text" (Json.str "")
  (pyStr (if truthy v then v else Json.str "")).length

/-- The `record` dict built by `_engineer_row` (`app.py` lines 93-114),
given the already-converted numeric fields. -/
def rowRecord (art : Artefact) (row : Record) (q np : ℚ) : List (String × ℚ) :=
  (CATEGORICAL_FEATURES.map (fun c => (c ++ "_enc", ((encFeature art row c : ℤ) : ℚ))))
  ++ [("day_of_week", (((dateFeats row).1 : ℤ) : ℚ)),
      ("month", (((dateFeats row).2 : ℤ) : ℚ)),
      ("quantity", q),
      ("net_price", np),
      ("text_length", ((textLen row : ℕ) : ℚ))]

/-- `pd.DataFrame([record])[feature_cols]` (`app.py` line 117): select the
record's values in the artefact's column order; a missing column raises. -/
def selectCols (rec : List (String × ℚ)) : List String → Except String (List ℚ)
  | [] => Except.ok []
  | c :: cs =>
    match List.lookup c rec with
    | some x => (selectCols rec cs).map (fun v => x :: v)
    | none => Except.error ("KeyError: " ++ c)

/-- `_engineer_row` (`app.py` lines 84-118): the single-record feature
vector, or the exception raised while converting a numeric field or
selecting the columns. -/
def engineerRow (row : Record) (art : Artefact) : Except String (List ℚ) :=
  match numField row "quantity", numField row "net_price" with
  | Except.ok q, Except.ok np => selectCols (rowRecord art row q np) art.feature_cols
  | Except.error e, _ => Except.error e
  | _, Except.error e => Except.error e

/-- The `1e-9` guard constant of `app.py` line 136. -/
def eps : ℚ := 1 / 1000000000

/-- `np.clip(x, 0, 1)`. -/
def clip01 (x : ℚ) : ℚ := min (max x 0) 1

/-- The confidence expression of `app.py` line 136:
`np.clip((threshold - raw_score) / abs(threshold + 1e-9), 0, 1)`;
a zero denominator is a raised `ZeroDivisionError`. -/
def servConfidence (threshold raw : ℚ) : Except String ℚ :=
  if |threshold + eps| = 0 then Except.error "float division by zero"
  else Except.ok (clip01 ((threshold - raw) / |threshold + eps|))

/-- The spec's stated confidence formula (spec §4.6):
`clamp((threshold - score) / (|threshold| + eps), 0, 1)`; written from the
spec's words for comparison with `servConfidence`. -/
def specConfidence (threshold raw : ℚ) : ℚ :=
  clip01 ((threshold - raw) / (|threshold| + eps))

/-- Banker's rounding of a rational to an integer (`round` ties-to-even). -/
def ratFloor (x : ℚ) : ℤ := x.num / (x.den : ℤ)

/-- Round half to even, as Python `round`. -/
def roundHalfEven (x : ℚ) : ℤ :=
  let n := ratFloor x
  let r := x - (n : ℚ)
  if r < 1 / 2 then n
  else if 1 / 2 < r then n + 1
  else if n % 2 = 0 then n else n + 1

/-- Python `round(x, d)`, modelled exactly on ℚ. -/
def pyRound (x : ℚ) (d : ℕ) : ℚ := ((roundHalfEven (x * 10 ^ d) : ℤ) : ℚ) / 10 ^ d

/-- One scored-prediction entry of the response (`app.py` lines 138-156). -/
structure Entry where
  pr_number : Json
  item_number : Json
  anomaly : Option Bool
  score : Option ℚ
  confidence : Option ℚ
  label : String
  error : Option String

/-- The fallible part of scoring one item (`app.py` lines 132-136): feature
engineering, raw score, anomaly flag and confidence.  (`model.predict` on
line 134 is computed and discarded by the source; it is not modelled.) -/
def scoreItemE (f : List ℚ → ℚ) (art : Artefact) (row : Record) :
    Except String (Bool × ℚ × ℚ) :=
  match engineerRow row art with
  | Except.error e => Except.error e
  | Except.ok X =>
    let raw := f X
    match servConfidence art.threshold raw with
    | Except.error e => Except.error e
    | Except.ok conf => Except.ok (decide (raw < art.threshold), raw, conf)

/-- Scoring one item, success or ERROR entry (`app.py` lines 130-156). -/
def scoreItem (f : List ℚ → ℚ) (art : Artefact) (row : Record) : Entry :=
  match scoreItemE f art row with
  | Except.ok (isA, raw, conf) =>
    { pr_number := getField row "pr_number" Json.null
      item_number := getField row "item_number" Json.null
      anomaly := some isA
      score := some (pyRound raw 6)
      confidence := some (pyRound conf 4)
      label := if isA then "ANOMALY" else "NORMAL"
      error := none }
  | Except.error e =>
    { pr_number := getField row "pr_number" Json.null
      item_number := getField row "item_number" Json.null
      anomaly := none
      score := none
      confidence := none
      label := "ERROR"
      error := some e }

/-- `_score_items` (`app.py` lines 121-158) on its declared input type
`list[dict]`: one result per item, in order. -/
def scoreItems (f : List ℚ → ℚ) (art : Artefact) (items : List Record) : List Entry :=
  items.map (scoreItem f art)

/-- `_score_items` as invoked by the `predict` handler, where an item of the
JSON batch need not be a dict.  A non-dict item makes `item.get` raise
`AttributeError` — in the `except` branch as well (`app.py` line 147) — so
the whole call aborts instead of yielding an ERROR entry. -/
def scoreItemsJson (f : List ℚ → ℚ) (art : Artefact) : List Json → Except String (List Entry)
  | [] => Except.ok []
  | it :: rest =>
    match it with
    | Json.obj kvs => (scoreItemsJson f art rest).map (fun es => scoreItem f art kvs :: es)
    | _ => Except.error "AttributeError: object has no attribute get"

/-- Whether the second character list starts with the first. -/
def startsWithChars : List Char → List Char → Bool
  | [], _ => true
  | _ :: _, [] => false
  | a :: as, b :: bs => a == b && startsWithChars as bs

/-- Substring test on character lists (Python `key in string`). -/
def subListAt (needle : List Char) : List Char → Bool
  | [] => needle.isEmpty
  | c :: rest => startsWithChars needle (c :: rest) || subListAt needle rest

/-- Python `key in payload` (`app.py` line 246) for each JSON shape: key
membership for a dict, element equality for a list, substring for a string,
and a raised `TypeError` for the remaining non-container shapes. -/
def pyContainsKey (payload : Json) (key : String) : Except String Bool :=
  match payload with
  | Json.obj kvs => Except.ok (List.lookup key kvs).isSome
  | Json.arr xs =>
    Except.ok (xs.any fun x => match x with | Json.str t => t == key | _ => false)
  | Json.str s => Except.ok (subListAt key.data s.data)
  | _ => Except.error "TypeError: argument is not iterable"

/-- Python `payload[key]` (`app.py` line 247) after a successful `in` test:
defined for a dict; any other shape raises `TypeError`. -/
def pyIndexKey (payload : Json) (key : String) : Except String Json :=
  match payload with
  | Json.obj kvs =>
    match List.lookup key kvs with
    | some v => Except.ok v
    | none => Except.error "KeyError: items"
  | _ => Except.error "TypeError: indices must be integers"

/-- The `predict` handler's response, by status class
(`app.py` lines 240-266): 400 / 200 / 503 / 500. -/
inductive Resp where
  | badRequest (msg : String) : Resp
  | ok (predictions : List Entry) : Resp
  | unavailable (msg : String) : Resp
  | serverError (msg : String) : Resp

/-- `app.py` lines 253-259: the handler after the batch has been extracted —
empty-batch rejection, then the model load (`none` models an absent model
file, raising `FileNotFoundError` → 503), then scoring. -/
def predictItems (artOpt : Option Artefact) (f : List ℚ → ℚ) (items : List Json) : Resp :=
  if items.isEmpty then Resp.badRequest "Empty items list"
  else
    match artOpt with
    | none => Resp.unavailable "Model not loaded"
    | some art =>
      match scoreItemsJson f art items with
      | Except.ok ps => Resp.ok ps
      | Except.error e => Resp.serverError e

/-- The `predict` handler (`app.py` lines 240-266).  `body = none` models
`request.get_json(force=True, silent=True)` returning `None` for a missing
or unparseable body; exceptions other than `FileNotFoundError` fall through
to the 500 branch. -/
def predict (artOpt : Option Artefact) (f : List ℚ → ℚ) (body : Option Json) : Resp :=
  match body with
  | none => Resp.badRequest "Invalid or missing JSON body"
  | some payload =>
    match pyContainsKey payload "items" with
    | Except.error e => Resp.serverError e
    | Except.ok true =>
      match pyIndexKey payload "items" with
      | Except.error e => Resp.serverError e
      | Except.ok (Json.arr xs) => predictItems artOpt f xs
      | Except.ok _ => Resp.badRequest "items must be a list"
    | Except.ok false => predictItems artOpt f [payload]

/-- Ascending sort of the training scores, as `np.percentile` sorts. -/
def sortScores (scores : List ℚ) : List ℚ := List.insertionSort (· ≤ ·) scores

/-- `np.percentile(scores, q)` with the default linear interpolation between
order statistics: at rank `h = (q/100)·(n-1)`, the value
`a[⌊h⌋] + (h - ⌊h⌋)·(a[⌊h⌋+1] - a[⌊h⌋])` over the sorted data. -/
def percentileLinear (scores : List ℚ) (q : ℚ) : ℚ :=
  let a := sortScores scores
  let n := a.length
  let h : ℚ := q / 100 * ((n : ℚ) - 1)
  let k : ℕ := (ratFloor h).toNat
  let lo := a.getD k 0
  let hi := a.getD (k + 1) lo
  lo + (h - (k : ℚ)) * (hi - lo)

/-- Threshold calibration (`train.py` line 169):
`float(np.percentile(scores, CONTAMINATION * 100))`. -/
def trainThreshold (scores : List ℚ) (contamination : ℚ) : ℚ :=
  percentileLinear scores (contamination * 100)

/-- Whether a JSON value is an array (Python `isinstance(items, list)`). -/
def Json.isArr : Json → Bool
  | Json.arr _ => true
  | _ => false

/-- A numeric request field whose conversion raises: the raw value is truthy
(so the `or 0` fallback does not apply) and `float()` fails on it. -/
def numBad (row : Record) (key : String) : Prop :=
  truthy (getField row key (Json.num 0)) = true ∧
  pyFloat (getField row key (Json.num 0)) = none

/-! ## Helper lemmas -/

/-- `ratFloor` agrees with the mathematical floor on ℚ. -/
lemma ratFloor_eq_floor (x : ℚ) : ratFloor x = ⌊x⌋ := by
  rw [Rat.floor_def]; rfl

/-- Membership in the fitted classes is membership in the fit input. -/
lemma mem_leFit {v : String} {l : List String} : v ∈ leFit l ↔ v ∈ l := by
  rw [leFit, List.Perm.mem_iff (List.perm_insertionSort strLeP l.dedup)]
  exact List.mem_dedup

/-- Full evaluation of `_engineer_row` once both numeric fields convert and
the artefact carries the training-time column order. -/
lemma engineerRow_eq (art : Artefact) (row : Record) (q np : ℚ)
    (hf : art.feature_cols = trainFeatureCols)
    (hq : numField row "quantity" = Except.ok q)
    (hnp : numField row "net_price" = Except.ok np) :
    engineerRow row art = Except.ok
      ((CATEGORICAL_FEATURES.map fun c => ((encFeature art row c : ℤ) : ℚ)) ++
       [q, np, (((dateFeats row).1 : ℤ) : ℚ), (((dateFeats row).2 : ℤ) : ℚ),
        ((textLen row : ℕ) : ℚ)]) := by
  unfold engineerRow
  rw [hq, hnp, hf]
  rfl

/-- An ERROR-labelled entry always has null fields and an error detail. -/
lemma scoreItem_error_fields (f : List ℚ → ℚ) (art : Artefact) (row : Record)
    (h : (scoreItem f art row).label = "ERROR") :
    (scoreItem f art row).anomaly = none ∧ (scoreItem f art row).score = none ∧
    (scoreItem f art row).confidence = none ∧
    ∃ e, (scoreItem f art row).error = some e := by
  unfold scoreItem at h ⊢
  cases hE : scoreItemE f art row with
  | ok v =>
    obtain ⟨isA, raw, conf⟩ := v
    rw [hE] at h
    cases isA <;> simp at h
  | error e =>
    exact ⟨rfl, rfl, rfl, e, rfl⟩

/-- A numeric field raises exactly when it is truthy and unconvertible. -/
lemma numField_error_iff (row : Record) (key : String) :
    (∃ e, numField row key = Except.error e) ↔ numBad row key := by
  unfold numField numBad
  by_cases hT : truthy (getField row key (Json.num 0)) = true
  · simp only [hT, if_true]
    cases hP : pyFloat (getField row key (Json.num 0)) <;> simp [hP]
  · simp only [hT, if_false, Bool.not_eq_true] at *
    simp [hT, pyFloat]

/-! ## Claims -/

/-- C1, counterexample.  The claim states that an empty categorical value
receives the same integer code at fit time (`engineer_features`) and at
transform time (`_engineer_row`) against the same fitted encoder.  Fit a
`pr_type` column on the values `["", "A"]`: training encodes the empty
string as code `0`, while inference on a record whose `pr_type` is `""`
coerces it to `"__UNKNOWN__"` and encodes `-1`. -/
theorem C1_counterexample :
    trainColEncode [Json.str "", Json.str "A"] = [0, 1] ∧
    encFeature
      (trainArtefact [("pr_type", leFit ([Json.str "", Json.str "A"].map fitCellStr))] 0)
      [("pr_type", Json.str "")] "pr_type" = -1 ∧
    (0 : ℤ) ≠ -1 := by
  refine ⟨by decide, by decide, by decide⟩

/-- C1 (amended): absent values (missing key, or `None`/NaN) are normalised
to `"__UNKNOWN__"` identically at fit time (`fillna`) and at transform time
(`row.get(col, "__UNKNOWN__") or "__UNKNOWN__"`), but the empty string is
coerced to the sentinel only at transform time: `fillna` leaves `""` as its
own category, so an empty-string field can receive a non-negative code at
training and `-1` at inference. -/
theorem C1_unknown_normalization :
    fitCellStr Json.null = "__UNKNOWN__" ∧
    (∀ (col : String) (row : Record),
      List.lookup col row = none → servCat row col = "__UNKNOWN__") ∧
    (∀ (col : String) (row : Record),
      List.lookup col row = some Json.null → servCat row col = "__UNKNOWN__") ∧
    fitCellStr (Json.str "") = "" ∧
    (∀ (col : String) (row : Record),
      List.lookup col row = some (Json.str "") → servCat row col = "__UNKNOWN__") := by
  refine ⟨rfl, ?_, ?_, rfl, ?_⟩ <;>
    intro col row h <;> simp [servCat, getField, h, truthy, pyStr]

/-- C1 witness: the amended normalisation evaluated on concrete records. -/
theorem C1_unknown_normalization_witness :
    servCat [] "pr_type" = "__UNKNOWN__" ∧
    servCat [("pr_type", Json.str "")] "pr_type" = "__UNKNOWN__" :=
  ⟨C1_unknown_normalization.2.1 "pr_type" [] rfl,
   C1_unknown_normalization.2.2.2.2 "pr_type" [("pr_type", Json.str "")] rfl⟩

/-- C2, counterexample.  The claim states that the reported confidence
equals `clamp((t - s) / (|t| + eps), 0, 1)` for every threshold `t` and
score `s`.  At `t = -2e-9`, `s = -3e-9` the code
(`np.clip((t - s) / abs(t + 1e-9), 0, 1)`) yields `1` while the claimed
formula yields `1/3`. -/
theorem C2_counterexample :
    servConfidence (-2/1000000000) (-3/1000000000) = Except.ok 1 ∧
    specConfidence (-2/1000000000) (-3/1000000000) = 1/3 ∧
    (1 : ℚ) ≠ 1/3 := by
  refine ⟨?_, ?_, by norm_num⟩
  · have hd : |(-2/1000000000 : ℚ) + eps| = 1/1000000000 := by
      rw [eps, show ((-2/1000000000 : ℚ) + 1/1000000000) = -(1/1000000000) by norm_num,
        abs_neg, abs_of_pos] ; norm_num
    rw [servConfidence, hd, if_neg (by norm_num), clip01]
    norm_num
  · have ha : |(-2/1000000000 : ℚ)| = 2/1000000000 := by
      rw [show ((-2/1000000000 : ℚ)) = -(2/1000000000) by norm_num, abs_neg,
        abs_of_pos] ; norm_num
    rw [specConfidence, ha, clip01, eps]
    norm_num

/-- C2 (amended): for every threshold `t` with `t ≠ -1e-9` and every raw
score `s`, the confidence computed by `_score_items` equals
`clamp((t - s) / |t + 1e-9|, 0, 1)` — the denominator is `abs(t + eps)`,
not `|t| + eps`; the two agree whenever `t ≥ 0`.  Confidence is `0` for
every `s ≥ t`, is positive for `s < t`, and never leaves `[0, 1]`.
(At `t = -1e-9` exactly, the code raises a `ZeroDivisionError` instead.) -/
theorem C2_confidence_amended (t s : ℚ) (h : t + eps ≠ 0) :
    servConfidence t s = Except.ok (clip01 ((t - s) / |t + eps|)) ∧
    (0 ≤ t → servConfidence t s = Except.ok (specConfidence t s)) ∧
    (t ≤ s → servConfidence t s = Except.ok 0) ∧
    (s < t → ∀ c, servConfidence t s = Except.ok c → 0 < c) ∧
    (∀ c, servConfidence t s = Except.ok c → 0 ≤ c ∧ c ≤ 1) := by
  have habs : |t + eps| ≠ 0 := abs_ne_zero.mpr h
  have hpos : 0 < |t + eps| := abs_pos.mpr h
  have heps : (0 : ℚ) < eps := by rw [eps]; norm_num
  have hmain : servConfidence t s = Except.ok (clip01 ((t - s) / |t + eps|)) := by
    rw [servConfidence, if_neg habs]
  refine ⟨hmain, ?_, ?_, ?_, ?_⟩
  · intro ht
    have h1 : |t + eps| = |t| + eps := by
      rw [abs_of_nonneg (by linarith), abs_of_nonneg ht]
    rw [hmain, h1, specConfidence]
  · intro hts
    have hx : (t - s) / |t + eps| ≤ 0 :=
      div_nonpos_iff.mpr (Or.inr ⟨by linarith, hpos.le⟩)
    rw [hmain, clip01, max_eq_right hx, min_eq_left (by norm_num)]
  · intro hst c hc
    rw [hmain] at hc
    have hx : 0 < (t - s) / |t + eps| := div_pos (by linarith) hpos
    have : c = clip01 ((t - s) / |t + eps|) := Except.ok.inj hc.symm
    rw [this, clip01, max_eq_left hx.le]
    exact lt_min hx (by norm_num)
  · intro c hc
    rw [hmain] at hc
    have : c = clip01 ((t - s) / |t + eps|) := Except.ok.inj hc.symm
    rw [this, clip01]
    constructor
    · exact le_min (le_max_right _ _) (by norm_num)
    · exact min_le_right _ _

/-- C2 witness: the amended confidence formula at `t = 1`, `s = 0`. -/
theorem C2_confidence_amended_witness :
    servConfidence 1 0 = Except.ok (clip01 ((1 - 0) / |1 + eps|)) :=
  (C2_confidence_amended 1 0 (by rw [eps]; norm_num)).1

/-- C3: for an encoder fitted on a normalised column, the transform step of
`_engineer_row` returns the code assigned at fit time (the value's index in
the fitted class set, the code `fit_transform` assigned to each of its
occurrences) when the value was fitted, and returns `-1` for any value not
in the fitted set; `catCode` is a total function, so no exception occurs. -/
theorem C3_transform_round_trip (cells : List Json) (v : String) :
    (v ∈ cells.map fitCellStr →
      catCode (leFit (cells.map fitCellStr)) v =
        (List.indexOf v (leFit (cells.map fitCellStr)) : ℤ) ∧
      ∀ i : ℕ, (cells.map fitCellStr).get? i = some v →
        (trainColEncode cells).get? i =
          some (List.indexOf v (leFit (cells.map fitCellStr)) : ℤ)) ∧
    (v ∉ cells.map fitCellStr → catCode (leFit (cells.map fitCellStr)) v = -1) := by
  constructor
  · intro hv
    constructor
    · rw [catCode, if_pos (mem_leFit.mpr hv)]
    · intro i hi
      rw [show trainColEncode cells =
            (cells.map fitCellStr).map
              (fun s => (List.indexOf s (leFit (cells.map fitCellStr)) : ℤ)) from rfl]
      rw [List.get?_eq_getElem?] at hi ⊢
      rw [List.getElem?_map, hi]
      rfl
  · intro hv
    rw [catCode, if_neg (fun hmem => hv (mem_leFit.mp hmem))]

/-- C3 witness: the fitted encoder on the column `["b", "a"]`. -/
theorem C3_transform_round_trip_witness :
    catCode (leFit ([Json.str "b", Json.str "a"].map fitCellStr)) "a" =
      (List.indexOf "a" (leFit ([Json.str "b", Json.str "a"].map fitCellStr)) : ℤ) ∧
    catCode (leFit ([Json.str "b", Json.str "a"].map fitCellStr)) "z" = -1 :=
  ⟨((C3_transform_round_trip [Json.str "b", Json.str "a"] "a").1 (by decide)).1,
   (C3_transform_round_trip [Json.str "b", Json.str "a"] "z").2 (by decide)⟩

/-- C4: the feature-vector column order is the concatenation of the encoded
categorical columns (declared order) followed by the numeric / derived
features (declared order); the artefact produced by training records this
order once in `feature_cols`; and for an artefact carrying that order,
`_engineer_row` emits the features of a record exactly in that order — and,
being a pure function of the record and artefact, two transforms of the
same record produce identical vectors. -/
theorem C4_column_order (art : Artefact) (row : Record) (q np : ℚ)
    (hf : art.feature_cols = trainFeatureCols)
    (hq : numField row "quantity" = Except.ok q)
    (hnp : numField row "net_price" = Except.ok np) :
    trainFeatureCols = CATEGORICAL_FEATURES.map (fun c => c ++ "_enc") ++ NUMERIC_FEATURES ∧
    (∀ encs thr, (trainArtefact encs thr).feature_cols = trainFeatureCols) ∧
    engineerRow row art = Except.ok
      ((CATEGORICAL_FEATURES.map fun c => ((encFeature art row c : ℤ) : ℚ)) ++
       [q, np, (((dateFeats row).1 : ℤ) : ℚ), (((dateFeats row).2 : ℤ) : ℚ),
        ((textLen row : ℕ) : ℚ)]) ∧
    engineerRow row art = engineerRow row art := by
  exact ⟨rfl, fun _ _ => rfl, engineerRow_eq art row q np hf hq hnp, rfl⟩

/-- C4 witness: the empty record against an artefact with no encoders. -/
theorem C4_column_order_witness :
    engineerRow [] (trainArtefact [] 1) = Except.ok
      ((CATEGORICAL_FEATURES.map fun c =>
          ((encFeature (trainArtefact [] 1) [] c : ℤ) : ℚ)) ++
       [0, 0, (((dateFeats []).1 : ℤ) : ℚ), (((dateFeats []).2 : ℤ) : ℚ),
        ((textLen [] : ℕ) : ℚ)]) :=
  (C4_column_order (trainArtefact [] 1) [] 0 0 rfl rfl rfl).2.2.1

/-- C5: for a successfully engineered record, the result entry marks
`anomaly` true exactly when the raw score is strictly below the stored
threshold, labels it `ANOMALY` exactly in that case and `NORMAL` otherwise,
reports the raw score rounded to 6 decimals and the confidence rounded to
4 decimals with no error detail; and every ERROR-labelled entry carries an
error detail string. -/
theorem C5_result_fields (f : List ℚ → ℚ) (art : Artefact) (row : Record) (X : List ℚ)
    (hX : engineerRow row art = Except.ok X) (ht : art.threshold + eps ≠ 0) :
    (scoreItem f art row).anomaly = some (decide (f X < art.threshold)) ∧
    (scoreItem f art row).label =
      (if f X < art.threshold then "ANOMALY" else "NORMAL") ∧
    (scoreItem f art row).score = some (pyRound (f X) 6) ∧
    (scoreItem f art row).confidence =
      some (pyRound (clip01 ((art.threshold - f X) / |art.threshold + eps|)) 4) ∧
    (scoreItem f art row).error = none ∧
    (∀ r : Record, (scoreItem f art r).label = "ERROR" →
      ∃ e, (scoreItem f art r).error = some e) := by
  have hok : servConfidence art.threshold (f X) =
      Except.ok (clip01 ((art.threshold - f X) / |art.threshold + eps|)) := by
    rw [servConfidence, if_neg (abs_ne_zero.mpr ht)]
  have hE : scoreItemE f art row =
      Except.ok (decide (f X < art.threshold), f X,
        clip01 ((art.threshold - f X) / |art.threshold + eps|)) := by
    simp only [scoreItemE, hX, hok]
  unfold scoreItem
  rw [hE]
  refine ⟨rfl, ?_, rfl, rfl, rfl, ?_⟩
  · by_cases hA : f X < art.threshold <;> simp [hA]
  · intro r hr
    exact (scoreItem_error_fields f art r hr).2.2.2

/-- C5 witness: scoring the empty record with the constant score 0 against
threshold 1. -/
theorem C5_result_fields_witness :
    (scoreItem (fun _ => 0) (trainArtefact [] 1) []).anomaly =
      some (decide ((fun (_ : List ℚ) => (0 : ℚ))
        ((CATEGORICAL_FEATURES.map fun c =>
            ((encFeature (trainArtefact [] 1) [] c : ℤ) : ℚ)) ++
         [0, 0, (((dateFeats []).1 : ℤ) : ℚ), (((dateFeats []).2 : ℤ) : ℚ),
          ((textLen [] : ℕ) : ℚ)]) < (trainArtefact [] 1).threshold)) :=
  (C5_result_fields (fun _ => 0) (trainArtefact [] 1) [] _
    (engineerRow_eq (trainArtefact [] 1) [] 0 0 rfl rfl rfl)
    (show ((1 : ℚ) + eps ≠ 0) by rw [eps]; norm_num)).1

/-- C7: a failing item yields an ERROR entry (null anomaly, score and
confidence, with an error string) in its batch position only; the other
entries equal what scoring the rest of the batch alone produces (the map
over a batch splits around the failing item); the result list has exactly
one entry per input item, and the entries follow the batch input order. -/
theorem C7_batch_isolation (f : List ℚ → ℚ) (art : Artefact)
    (xs ys : List Record) (bad : Record)
    (hbad : (scoreItem f art bad).label = "ERROR") :
    scoreItems f art (xs ++ bad :: ys) =
      scoreItems f art xs ++ scoreItem f art bad :: scoreItems f art ys ∧
    (scoreItem f art bad).anomaly = none ∧
    (scoreItem f art bad).score = none ∧
    (scoreItem f art bad).confidence = none ∧
    (∃ e, (scoreItem f art bad).error = some e) ∧
    (∀ items : List Record, (scoreItems f art items).length = items.length) ∧
    (∀ (items : List Record) (i : ℕ),
      (scoreItems f art items).get? i = (items.get? i).map (scoreItem f art)) := by
  obtain ⟨h1, h2, h3, h4⟩ := scoreItem_error_fields f art bad hbad
  refine ⟨?_, h1, h2, h3, h4, ?_, ?_⟩
  · rw [scoreItems, List.map_append, List.map_cons]
    rfl
  · intro items
    exact List.length_map items _
  · intro items i
    rw [scoreItems, List.get?_eq_getElem?, List.get?_eq_getElem?, List.getElem?_map]

/-- C7 witness: a batch of a well-formed record around a record whose
`quantity` is the unconvertible string `"abc"`. -/
theorem C7_batch_isolation_witness :
    scoreItems (fun _ => 0) (trainArtefact [] 1)
        ([] ++ [("quantity", Json.str "abc")] :: []) =
      scoreItems (fun _ => 0) (trainArtefact [] 1) [] ++
        scoreItem (fun _ => 0) (trainArtefact [] 1) [("quantity", Json.str "abc")] ::
          scoreItems (fun _ => 0) (trainArtefact [] 1) [] :=
  (C7_batch_isolation (fun _ => 0) (trainArtefact [] 1) [] []
    [("quantity", Json.str "abc")] rfl).1

/-- C8: the predict handler answers 400 for a missing or unparseable JSON
body, for an object whose `items` value is not a list, and for an empty
items list — in each case whatever the model state (so before any model
access); only once these checks pass is the model consulted, and an absent
model then yields the distinct 503 response, not a per-record ERROR. -/
theorem C8_request_validation (artOpt : Option Artefact) (f : List ℚ → ℚ) :
    predict artOpt f none = Resp.badRequest "Invalid or missing JSON body" ∧
    (∀ (kvs : List (String × Json)) (j : Json),
      List.lookup "items" kvs = some j → j.isArr = false →
      predict artOpt f (some (Json.obj kvs)) = Resp.badRequest "items must be a list") ∧
    (∀ kvs : List (String × Json), List.lookup "items" kvs = some (Json.arr []) →
      predict artOpt f (some (Json.obj kvs)) = Resp.badRequest "Empty items list") ∧
    (∀ (kvs : List (String × Json)) (x : Json) (xs : List Json),
      List.lookup "items" kvs = some (Json.arr (x :: xs)) →
      predict none f (some (Json.obj kvs)) = Resp.unavailable "Model not loaded") := by
  refine ⟨rfl, ?_, ?_, ?_⟩
  · intro kvs j hj harr
    rw [predict, pyContainsKey, hj]
    simp only [Option.isSome_some, pyIndexKey, hj]
    cases j <;> simp [Json.isArr] at harr ⊢
  · intro kvs hj
    rw [predict, pyContainsKey, hj]
    simp only [Option.isSome_some, pyIndexKey, hj]
    rfl
  · intro kvs x xs hj
    rw [predict, pyContainsKey, hj]
    simp only [Option.isSome_some, pyIndexKey, hj]
    rfl

/-- C8 witness: the validation paths on concrete payloads, with no model
loaded throughout. -/
theorem C8_request_validation_witness :
    predict (none : Option Artefact) (fun _ => 0)
        (some (Json.obj [("items", Json.num 5)])) =
      Resp.badRequest "items must be a list" ∧
    predict (none : Option Artefact) (fun _ => 0)
        (some (Json.obj [("items", Json.arr [])])) =
      Resp.badRequest "Empty items list" ∧
    predict (none : Option Artefact) (fun _ => 0)
        (some (Json.obj [("items", Json.arr [Json.obj []])])) =
      Resp.unavailable "Model not loaded" :=
  ⟨(C8_request_validation none (fun _ => 0)).2.1 [("items", Json.num 5)]
      (Json.num 5) rfl rfl,
   (C8_request_validation none (fun _ => 0)).2.2.1 [("items", Json.arr [])] rfl,
   (C8_request_validation none (fun _ => 0)).2.2.2 [("items", Json.arr [Json.obj []])]
      (Json.obj []) [] rfl⟩

/-- C9: a falsy `quantity`/`net_price` value (absent key, `None`, empty
string, `0`, `false`, empty list or dict) converts to `0.0` via the
`or 0` fallback and never by itself produces an ERROR entry; against a
well-formed artefact, a record lands in the ERROR branch of `_score_items`
exactly when one of the two numeric fields holds a truthy value that
`float()` cannot convert. -/
theorem C9_numeric_defaults (f : List ℚ → ℚ) (art : Artefact) (row : Record)
    (hf : art.feature_cols = trainFeatureCols) (ht : art.threshold + eps ≠ 0) :
    (∀ key : String, truthy (getField row key (Json.num 0)) = false →
      numField row key = Except.ok 0) ∧
    ((scoreItem f art row).label = "ERROR" ↔
      numBad row "quantity" ∨ numBad row "net_price") := by
  constructor
  · intro key h
    rw [numField]
    simp only [h, Bool.false_eq_true, if_false]
    rfl
  · cases hq : numField row "quantity" with
    | error e =>
      have hrow : engineerRow row art = Except.error e := by
        unfold engineerRow
        rw [hq]
        cases numField row "net_price" <;> rfl
      have hlabel : (scoreItem f art row).label = "ERROR" := by
        unfold scoreItem scoreItemE
        rw [hrow]
      have hbadq : numBad row "quantity" := (numField_error_iff row "quantity").mp ⟨e, hq⟩
      exact ⟨fun _ => Or.inl hbadq, fun _ => hlabel⟩
    | ok q =>
      cases hnp : numField row "net_price" with
      | error e =>
        have hrow : engineerRow row art = Except.error e := by
          unfold engineerRow
          rw [hq, hnp]
        have hlabel : (scoreItem f art row).label = "ERROR" := by
          unfold scoreItem scoreItemE
          rw [hrow]
        have hbadnp : numBad row "net_price" := (numField_error_iff row "net_price").mp ⟨e, hnp⟩
        exact ⟨fun _ => Or.inr hbadnp, fun _ => hlabel⟩
      | ok np =>
        have hrow := engineerRow_eq art row q np hf hq hnp
        have hok : servConfidence art.threshold
            (f ((CATEGORICAL_FEATURES.map fun c => ((encFeature art row c : ℤ) : ℚ)) ++
              [q, np, (((dateFeats row).1 : ℤ) : ℚ), (((dateFeats row).2 : ℤ) : ℚ),
               ((textLen row : ℕ) : ℚ)])) =
            Except.ok (clip01 ((art.threshold -
              f ((CATEGORICAL_FEATURES.map fun c => ((encFeature art row c : ℤ) : ℚ)) ++
                [q, np, (((dateFeats row).1 : ℤ) : ℚ), (((dateFeats row).2 : ℤ) : ℚ),
                 ((textLen row : ℕ) : ℚ)])) / |art.threshold + eps|)) := by
          rw [servConfidence, if_neg (abs_ne_zero.mpr ht)]
        have hlabel : (scoreItem f art row).label ≠ "ERROR" := by
          unfold scoreItem
          simp only [scoreItemE, hrow, hok]
          by_cases hA : f ((CATEGORICAL_FEATURES.map fun c =>
              ((encFeature art row c : ℤ) : ℚ)) ++
            [q, np, (((dateFeats row).1 : ℤ) : ℚ), (((dateFeats row).2 : ℤ) : ℚ),
             ((textLen row : ℕ) : ℚ)]) < art.threshold <;> simp [hA]
        have hnbq : ¬ numBad row "quantity" := fun hb => by
          obtain ⟨e, he⟩ := (numField_error_iff row "quantity").mpr hb
          rw [hq] at he
          exact Except.noConfusion he
        have hnbnp : ¬ numBad row "net_price" := fun hb => by
          obtain ⟨e, he⟩ := (numField_error_iff row "net_price").mpr hb
          rw [hnp] at he
          exact Except.noConfusion he
        exact ⟨fun h => absurd h hlabel, fun h => absurd h (by
          intro hor
          cases hor with
          | inl hb => exact hnbq hb
          | inr hb => exact hnbnp hb)⟩

/-- C9 witness: a record with `quantity = None` converts the field to `0`,
and a record with `quantity = "abc"` (truthy, unconvertible) is the ERROR
case of the characterisation. -/
theorem C9_numeric_defaults_witness :
    numField [("quantity", Json.null)] "quantity" = Except.ok 0 ∧
    ((scoreItem (fun _ => 0) (trainArtefact [] 1)
        [("quantity", Json.str "abc")]).label = "ERROR" ↔
      numBad [("quantity", Json.str "abc")] "quantity" ∨
        numBad [("quantity", Json.str "abc")] "net_price") :=
  ⟨(C9_numeric_defaults (fun _ => 0) (trainArtefact [] 1) [("quantity", Json.null)]
      rfl (show ((1 : ℚ) + eps ≠ 0) by rw [eps]; norm_num)).1 "quantity" rfl,
   (C9_numeric_defaults (fun _ => 0) (trainArtefact [] 1) [("quantity", Json.str "abc")]
      rfl (show ((1 : ℚ) + eps ≠ 0) by rw [eps]; norm_num)).2⟩

/-- C10: a JSON object without an `items` key is treated as a batch of that
single record: the handler answers 200 with exactly one prediction entry;
in particular the empty object `{}` is not rejected as an empty batch, and
it is engineered with every feature at its documented default — the
`"__UNKNOWN__"` lookup for each categorical column, `0` for the numeric
fields and the text length, and `-1` for both date features. -/
theorem C10_single_record (art : Artefact) (f : List ℚ → ℚ)
    (kvs : List (String × Json))
    (hf : art.feature_cols = trainFeatureCols)
    (hni : List.lookup "items" kvs = none) :
    predict (some art) f (some (Json.obj kvs)) = Resp.ok [scoreItem f art kvs] ∧
    predict (some art) f (some (Json.obj [])) = Resp.ok [scoreItem f art []] ∧
    (∀ col : String, servCat [] col = "__UNKNOWN__") ∧
    engineerRow [] art = Except.ok
      ((CATEGORICAL_FEATURES.map fun c => ((encFeature art [] c : ℤ) : ℚ)) ++
       [0, 0, -1, -1, 0]) := by
  refine ⟨?_, ?_, ?_, ?_⟩
  · have h1 : pyContainsKey (Json.obj kvs) "items" = Except.ok false := by
      show Except.ok (List.lookup "items" kvs).isSome = Except.ok false
      rw [hni]
      rfl
    simp only [predict, h1]
    rfl
  · rfl
  · intro col
    rfl
  · rw [engineerRow_eq art [] 0 0 hf rfl rfl,
      show dateFeats [] = (-1, -1) from rfl,
      show textLen [] = 0 from rfl]
    norm_num

/-- C10 witness: a one-field object without an `items` key, against a
freshly trained artefact. -/
theorem C10_single_record_witness :
    predict (some (trainArtefact [] 1)) (fun _ => 0)
        (some (Json.obj [("plant", Json.str "X")])) =
      Resp.ok [scoreItem (fun _ => 0) (trainArtefact [] 1) [("plant", Json.str "X")]] :=
  (C10_single_record (trainArtefact [] 1) (fun _ => 0) [("plant", Json.str "X")]
    rfl rfl).1

/-- In a sorted list, at most `k + 1` elements lie strictly below the
linear interpolation between the order statistics at positions `k` and
`k + 1`. -/
lemma sorted_countP_lt_le (a : List ℚ) (hsorted : List.Sorted (· ≤ ·) a)
    (k : ℕ) (frac : ℚ) (hfrac : frac ≤ 1) (Q : ℚ)
    (hQ : Q = a.getD k 0 + frac * (a.getD (k + 1) (a.getD k 0) - a.getD k 0)) :
    a.countP (fun s => decide (s < Q)) ≤ k + 1 := by
  by_cases hkn : k + 1 < a.length
  · have hk : k < a.length := Nat.lt_of_succ_lt hkn
    have hlo : a.getD k 0 = a.get ⟨k, hk⟩ := by
      rw [List.getD_eq_getElem a 0 hk, List.get_eq_getElem]
    have hhi : a.getD (k + 1) (a.getD k 0) = a.get ⟨k + 1, hkn⟩ := by
      rw [List.getD_eq_getElem a _ hkn, List.get_eq_getElem]
    have hlohi : a.get ⟨k, hk⟩ ≤ a.get ⟨k + 1, hkn⟩ :=
      hsorted.rel_get_of_lt (by simp [Fin.lt_def])
    have hQle : Q ≤ a.get ⟨k + 1, hkn⟩ := by
      rw [hQ, hhi, hlo]
      have h1 : frac * (a.get ⟨k + 1, hkn⟩ - a.get ⟨k, hk⟩) ≤
          a.get ⟨k + 1, hkn⟩ - a.get ⟨k, hk⟩ :=
        mul_le_of_le_one_left (by linarith) hfrac
      linarith
    have hdropzero : (List.drop (k + 1) a).countP (fun s => decide (s < Q)) = 0 := by
      apply List.countP_eq_zero.mpr
      intro x hx
      have hdrop : List.drop (k + 1) a = a[k + 1] :: List.drop (k + 2) a :=
        List.drop_eq_getElem_cons hkn
      have hdsorted : List.Sorted (· ≤ ·) (List.drop (k + 1) a) :=
        List.Pairwise.sublist (List.drop_sublist _ _) hsorted
      have hxge : a.get ⟨k + 1, hkn⟩ ≤ x := by
        rw [hdrop] at hx hdsorted
        rcases List.mem_cons.mp hx with h | h
        · rw [h]
          exact le_of_eq (List.get_eq_getElem a _)
        · exact le_trans (le_of_eq (List.get_eq_getElem a _))
            ((List.sorted_cons.mp hdsorted).1 x h)
      simp only [decide_eq_true_eq]
      exact fun hlt => absurd hlt (not_lt.mpr (le_trans hQle hxge))
    calc a.countP (fun s => decide (s < Q))
        = (List.take (k + 1) a).countP (fun s => decide (s < Q)) +
          (List.drop (k + 1) a).countP (fun s => decide (s < Q)) := by
          conv_lhs => rw [← List.take_append_drop (k + 1) a]
          exact List.countP_append _ _ _
      _ ≤ (k + 1) + 0 := by
          rw [hdropzero]
          refine Nat.add_le_add ?_ le_rfl
          refine le_trans (List.countP_le_length _) ?_
          rw [List.length_take]
          omega
      _ = k + 1 := by omega
  · exact le_trans (List.countP_le_length _) (by omega)

/-- C6, counterexample.  The claim asserts that the fraction of training
scores strictly below the calibrated threshold is approximately the
contamination `p`, exactly so under the chosen percentile definition.  On
the all-tied score list `[5, 5, 5, 5]` with `p = 1/2`, the threshold is `5`
and no score lies strictly below it: the fraction is `0`, not `1/2`. -/
theorem C6_counterexample :
    trainThreshold [5, 5, 5, 5] (1/2) = 5 ∧
    List.countP (fun s => decide (s < trainThreshold [5, 5, 5, 5] (1/2))) [5, 5, 5, 5] = 0 ∧
    (0 : ℚ) / 4 ≠ 1/2 := by
  have h : trainThreshold [5, 5, 5, 5] (1/2) = 5 := by
    rw [trainThreshold, percentileLinear]
    norm_num [sortScores, ratFloor, List.insertionSort, List.orderedInsert]
  refine ⟨h, ?_, by norm_num⟩
  simp only [h]
  decide

/-- C6 (amended): the calibrated threshold is the value at the
`contamination·100`-th percentile of the training scores under linear
interpolation between order statistics, computed once over the training
scores alone (`trainThreshold` is a pure function of them); the number of
training scores strictly below it is at most `⌊p·(n-1)⌋ + 1` — so the
fraction strictly below never exceeds `p + 1/n` — but the fraction can fall
arbitrarily short of `p` when scores are tied at the percentile, so no
approximate-equality guarantee holds. -/
theorem C6_threshold_calibration (S : List ℚ) (p : ℚ)
    (hS : S ≠ []) (hp0 : 0 < p) (_hp1 : p < 1) :
    trainThreshold S p = percentileLinear S (p * 100) ∧
    S.countP (fun s => decide (s < trainThreshold S p)) ≤
      (ratFloor (p * ((S.length : ℚ) - 1))).toNat + 1 ∧
    ((S.countP (fun s => decide (s < trainThreshold S p)) : ℚ)) ≤
      (S.length : ℚ) * p + 1 := by
  have hperm : (sortScores S).Perm S := List.perm_insertionSort _ S
  have hsorted : List.Sorted (· ≤ ·) (sortScores S) := List.sorted_insertionSort _ S
  have hlen : (sortScores S).length = S.length := hperm.length_eq
  have hlen1 : 1 ≤ S.length := List.length_pos.mpr hS
  have hlenq : (1 : ℚ) ≤ (S.length : ℚ) := by exact_mod_cast hlen1
  have hq100 : (p * 100) / 100 * (((sortScores S).length : ℚ) - 1) =
      p * ((S.length : ℚ) - 1) := by
    rw [hlen, mul_div_assoc]
    norm_num
  have hH0 : 0 ≤ p * ((S.length : ℚ) - 1) := mul_nonneg hp0.le (by linarith)
  have hfl0 : 0 ≤ ⌊p * ((S.length : ℚ) - 1)⌋ := Int.floor_nonneg.mpr hH0
  have hKfl : ((ratFloor (p * ((S.length : ℚ) - 1))).toNat : ℤ) =
      ⌊p * ((S.length : ℚ) - 1)⌋ := by
    rw [ratFloor_eq_floor]
    exact Int.toNat_of_nonneg hfl0
  have hKle : (((ratFloor (p * ((S.length : ℚ) - 1))).toNat : ℕ) : ℚ) ≤
      p * ((S.length : ℚ) - 1) := by
    have := Int.floor_le (α := ℚ) (p * ((S.length : ℚ) - 1))
    have hcast : (((ratFloor (p * ((S.length : ℚ) - 1))).toNat : ℕ) : ℚ) =
        ((⌊p * ((S.length : ℚ) - 1)⌋ : ℤ) : ℚ) := by
      exact_mod_cast congrArg (fun z : ℤ => (z : ℚ)) hKfl
    rw [hcast]
    exact this
  have hKgt : p * ((S.length : ℚ) - 1) <
      (((ratFloor (p * ((S.length : ℚ) - 1))).toNat : ℕ) : ℚ) + 1 := by
    have := Int.lt_floor_add_one (α := ℚ) (p * ((S.length : ℚ) - 1))
    have hcast : (((ratFloor (p * ((S.length : ℚ) - 1))).toNat : ℕ) : ℚ) =
        ((⌊p * ((S.length : ℚ) - 1)⌋ : ℤ) : ℚ) := by
      exact_mod_cast congrArg (fun z : ℤ => (z : ℚ)) hKfl
    rw [hcast]
    exact this
  -- the threshold in interpolation form over the sorted scores
  have hthr : trainThreshold S p =
      (sortScores S).getD ((ratFloor ((p * 100) / 100 * (((sortScores S).length : ℚ) - 1))).toNat) 0 +
      ((p * 100) / 100 * (((sortScores S).length : ℚ) - 1) -
        (((ratFloor ((p * 100) / 100 * (((sortScores S).length : ℚ) - 1))).toNat : ℕ) : ℚ)) *
      ((sortScores S).getD ((ratFloor ((p * 100) / 100 * (((sortScores S).length : ℚ) - 1))).toNat + 1)
         ((sortScores S).getD ((ratFloor ((p * 100) / 100 * (((sortScores S).length : ℚ) - 1))).toNat) 0) -
       (sortScores S).getD ((ratFloor ((p * 100) / 100 * (((sortScores S).length : ℚ) - 1))).toNat) 0) := rfl
  have hfrac : (p * 100) / 100 * (((sortScores S).length : ℚ) - 1) -
      (((ratFloor ((p * 100) / 100 * (((sortScores S).length : ℚ) - 1))).toNat : ℕ) : ℚ) ≤ 1 := by
    rw [hq100]
    linarith
  have hbound := sorted_countP_lt_le (sortScores S) hsorted
    ((ratFloor ((p * 100) / 100 * (((sortScores S).length : ℚ) - 1))).toNat)
    ((p * 100) / 100 * (((sortScores S).length : ℚ) - 1) -
      (((ratFloor ((p * 100) / 100 * (((sortScores S).length : ℚ) - 1))).toNat : ℕ) : ℚ))
    hfrac (trainThreshold S p) hthr
  have hcnt : S.countP (fun s => decide (s < trainThreshold S p)) =
      (sortScores S).countP (fun s => decide (s < trainThreshold S p)) :=
    (hperm.countP_eq _).symm
  have hKeq : (ratFloor ((p * 100) / 100 * (((sortScores S).length : ℚ) - 1))).toNat =
      (ratFloor (p * ((S.length : ℚ) - 1))).toNat := by
    rw [hq100]
  have hmain : S.countP (fun s => decide (s < trainThreshold S p)) ≤
      (ratFloor (p * ((S.length : ℚ) - 1))).toNat + 1 := by
    rw [hcnt, ← hKeq]
    exact hbound
  refine ⟨rfl, hmain, ?_⟩
  have hcast : ((S.countP (fun s => decide (s < trainThreshold S p)) : ℕ) : ℚ) ≤
      (((ratFloor (p * ((S.length : ℚ) - 1))).toNat : ℕ) : ℚ) + 1 := by
    exact_mod_cast hmain
  have hexp : p * ((S.length : ℚ) - 1) = (S.length : ℚ) * p - p := by ring
  linarith [hKle]

/-- C6 witness: the amended threshold property on the scores `[1, 2, 3, 4]`
with contamination `1/2`. -/
theorem C6_threshold_calibration_witness :
    trainThreshold [1, 2, 3, 4] (1/2) = percentileLinear [1, 2, 3, 4] ((1/2) * 100) ∧
    List.countP (fun s => decide (s < trainThreshold [1, 2, 3, 4] (1/2))) [1, 2, 3, 4] ≤
      (ratFloor ((1/2) * ((([1, 2, 3, 4] : List ℚ).length : ℚ) - 1))).toNat + 1 ∧
    ((List.countP (fun s => decide (s < trainThreshold [1, 2, 3, 4] (1/2))) [1, 2, 3, 4] : ℚ)) ≤
      ((([1, 2, 3, 4] : List ℚ).length : ℚ)) * (1/2) + 1 :=
  C6_threshold_calibration [1, 2, 3, 4] (1/2) (by decide) (by norm_num) (by norm_num)

end PRAnomaly
